import Mathlib

/-!
Shallow embedding of the kind cluster provider (`support/kind/kind.go`).

The provider drives an external cluster-provisioning binary through shell
commands and the Kubernetes API through a wait helper.  Those external
collaborators (command runner, tool installer, kubeconfig parser, temp-file
oracle, pod-list wait primitive) are modelled as an environment `Env` of
response functions; the observable effects (commands executed, installer
invocations, temp files on disk, the process-wide default tool version) are
threaded through an explicit state `Sys`.

Conventions:
* Go's `(value, error)` returns are modelled as `value × Option String`
  (`none` = nil error).
* `os.CreateTemp` is modelled by a fresh-name counter: the generated file
  name is the pattern with the current counter appended, and the counter
  increments, so successive calls yield distinct names, as `os.CreateTemp`
  guarantees.
* `io.Copy` from the in-memory stdout buffer to the temp file is modelled
  as copying all `utf8ByteSize` bytes without error (write errors are
  process plumbing outside the claims); the copied-byte count is recorded
  as the file's size.
* the `*rest.Config` pointer field `rc` is modelled as `Option Unit`
  (`none` = nil pointer).
-/

/-- Result of `utils.RunCommand`: `Err()`, captured `Out()` stream content,
and `Result()`. -/
structure Proc where
  err : Option String
  out : String
  result : String
  deriving DecidableEq

/-- A `context.Context`, reduced to its cancellation flag.  The kind
provider never inspects it, mirroring the source, where `ctx` is accepted
but unused. -/
structure Ctx where
  cancelled : Bool
  deriving DecidableEq

/-- The `Cluster` struct of `support/kind/kind.go`. -/
structure Cluster where
  path : String
  name : String
  kubecfgFile : String
  version : String
  image : String
  rc : Option Unit
  deriving DecidableEq

/-- One `metav1.LabelSelectorRequirement` (key, operator, values). -/
structure LabelSelectorRequirement where
  key : String
  op : String
  values : List String
  deriving DecidableEq

/-- Responses of the external collaborators (spec section 6): the command
runner (`utils.RunCommand` / `utils.FetchCommandOutput`), both functions of
the history of previously executed commands so that, e.g., a listing taken
after `create cluster` ran can differ from one taken before; the tool
installer; the temp-file oracle; the kubeconfig parser `conf.New`;
`os.RemoveAll`; `resources.New`; `metav1.LabelSelectorAsSelector`; and the
`wait.For`/`ResourceListN` pod-list wait primitive (selector, count). -/
structure Env where
  run : List String → String → Proc
  fetch : List String → String → String
  findOrInstallGoBasedProvider : String → String → String → String → String × Option String
  tempErr : Option String
  confNew : String → Option String
  removeAll : String → Option String
  resourcesNewErr : Option String
  selectorOf : LabelSelectorRequirement → Except String String
  waitFor : String → Nat → Option String

/-- Threaded mutable world: the process-wide `var kindVersion` global, the
filesystem (file name, size in bytes), the temp-name counter, the
chronological list of tool commands executed, and the arguments (path hint,
version) of each installer invocation. -/
structure Sys where
  kindVersion : String
  fs : List (String × Nat)
  tmpCtr : Nat
  hist : List String
  installCalls : List (String × String)
  deriving DecidableEq

/-- `NewCluster`: a handle holding only the name (Go zero values
elsewhere). -/
def NewCluster (name : String) : Cluster :=
  { path := "", name := name, kubecfgFile := "", version := "", image := "", rc := none }

/-- `SetDefaults`: default the tool path to `"kind"` when unset. -/
def Cluster.SetDefaults (k : Cluster) : Cluster :=
  if k.path = "" then { k with path := "kind" } else k

/-- `WithVersion`: pin a tool version on the handle. -/
def Cluster.WithVersion (k : Cluster) (ver : String) : Cluster :=
  { k with version := ver }

/-- `GetKubeconfig`: returns the stored credential file path. -/
def Cluster.GetKubeconfig (k : Cluster) : String :=
  k.kubecfgFile

/-- `KubernetesRestConfig`: returns the stored rest-config pointer. -/
def Cluster.KubernetesRestConfig (k : Cluster) : Option Unit :=
  k.rc

/-- The `"%s get clusters"` command string. -/
def getClustersCmd (k : Cluster) : String :=
  k.path ++ " get clusters"

/-- The `"%s get kubeconfig --name %s"` command string. -/
def getKubeconfigCmd (k : Cluster) : String :=
  k.path ++ " get kubeconfig --name " ++ k.name

/-- The `"%s create cluster --name %s"` command plus caller args joined by
spaces (`strings.Join(args, " ")`), appended only when args are present. -/
def createClusterCmd (k : Cluster) (args : List String) : String :=
  let command := k.path ++ " create cluster --name " ++ k.name
  if args.length > 0 then command ++ " " ++ String.intercalate " " args else command

/-- The `"%s delete cluster --name %s"` command string. -/
def deleteClusterCmd (k : Cluster) : String :=
  k.path ++ " delete cluster --name " ++ k.name

/-- Go's `strings.Split(s, "\n")` on the character list: fields between
newline separators; always at least one field; a trailing newline yields a
trailing empty field. -/
def splitNl : List Char → List (List Char)
  | [] => [[]]
  | c :: rest =>
    if c = '\n' then [] :: splitNl rest
    else
      match splitNl rest with
      | [] => [[c]]
      | h :: t => (c :: h) :: t

/-- The lines of the cluster-listing output, as strings. -/
def goSplitLines (s : String) : List String :=
  (splitNl s.data).map (fun l => String.mk l)

/-- The loop body of `clusterExists`: `for _, c := range lines { if c ==
name { return true } }; return false`. -/
def linesContain : List String → String → Bool
  | [], _ => false
  | c :: rest, name => if c = name then true else linesContain rest name

/-- `findOrInstallKind`: if the handle pins a version, overwrite the global
`kindVersion`; invoke the installer with the (possibly updated) global; if
it returns a non-empty path, adopt it; return the installer's error.  When
the handle's version is empty the global keeps its value, so writing the
unchanged value back is the identity. -/
def Cluster.findOrInstallKind (k : Cluster) (env : Env) (s : Sys) :
    Option String × Cluster × Sys :=
  let kv := if k.version = "" then s.kindVersion else k.version
  let pr := env.findOrInstallGoBasedProvider k.path "kind" "sigs.k8s.io/kind" kv
  let k1 := if pr.1 = "" then k else { k with path := pr.1 }
  (pr.2, k1, { s with kindVersion := kv, installCalls := s.installCalls ++ [(k.path, kv)] })

/-- `clusterExists`: fetch the `get clusters` output and match the target
name against each line of the output split on newlines; returns the raw
listing and the match result. -/
def Cluster.clusterExists (k : Cluster) (env : Env) (s : Sys) (name : String) :
    (String × Bool) × Sys :=
  let cmd := getClustersCmd k
  let clusters := env.fetch s.hist cmd
  ((clusters, linesContain (goSplitLines clusters) name), { s with hist := s.hist ++ [cmd] })

/-- `getKubeconfig`: run `get kubeconfig --name`, read its stdout, create a
temp file whose name embeds the cluster name (source typo `kind-cluser`
preserved), record the file path on the handle BEFORE the copy check, copy
the bytes, and fail when zero bytes were copied. -/
def Cluster.getKubeconfig (k : Cluster) (env : Env) (s : Sys) :
    (String × Option String) × Cluster × Sys :=
  let kubecfg := k.name ++ "-kubecfg"
  let cmd := getKubeconfigCmd k
  let p := env.run s.hist cmd
  let s1 := { s with hist := s.hist ++ [cmd] }
  match p.err with
  | some e => (("", some ("kind get kubeconfig: " ++ e)), k, s1)
  | none =>
    match env.tempErr with
    | some e => (("", some ("kind kubeconfig file: " ++ e)), k, s1)
    | none =>
      let fname := "kind-cluser-" ++ kubecfg ++ toString s1.tmpCtr
      let n := p.out.utf8ByteSize
      let s2 := { s1 with fs := s1.fs ++ [(fname, n)], tmpCtr := s1.tmpCtr + 1 }
      let k1 := { k with kubecfgFile := fname }
      if n = 0 then
        (("", some ("kind kubecfg file: bytes copied: " ++ toString n)), k1, s2)
      else
        ((fname, none), k1, s2)

/-- `initKubernetesAccessClients`: parse the stored credential file via
`conf.New`; on success store the (non-nil) rest config. -/
def Cluster.initKubernetesAccessClients (k : Cluster) (env : Env) :
    Option String × Cluster :=
  match env.confNew k.kubecfgFile with
  | some e => (some e, k)
  | none => (none, { k with rc := some () })

/-- The branch of `Create` taken when the cluster does not yet exist: run
the create command; on non-zero exit fail with the wrapped output; re-check
existence and fail with the inconsistency error when the name is still
absent; otherwise extract credentials and initialize the access clients. -/
def Cluster.provisionAndFetch (k : Cluster) (env : Env) (s : Sys) (args : List String) :
    (String × Option String) × Cluster × Sys :=
  let command := createClusterCmd k args
  let p := env.run s.hist command
  let s1 := { s with hist := s.hist ++ [command] }
  match p.err with
  | some e =>
    (("", some ("failed to create kind cluster: " ++ e ++ " : " ++ p.result ++ ": " ++ p.out)), k, s1)
  | none =>
    let r := k.clusterExists env s1 k.name
    if r.1.2 then
      match k.getKubeconfig env r.2 with
      | ((_, some e), k2, s3) => (("", some e), k2, s3)
      | ((kConfig, none), k2, s3) =>
        let ir := k2.initKubernetesAccessClients env
        ((kConfig, ir.1), ir.2, s3)
    else
      (("", some ("kind Cluster.Create: cluster " ++ k.name ++
        " still not in 'cluster list' after creation: " ++ r.1.1)), k, r.2)

/-- The body of `Create` after tool resolution: the existence check either
short-circuits into a bare kubeconfig re-fetch or provisions the
cluster. -/
def Cluster.createCore (k : Cluster) (env : Env) (s : Sys) (args : List String) :
    (String × Option String) × Cluster × Sys :=
  let r := k.clusterExists env s k.name
  if r.1.2 then k.getKubeconfig env r.2
  else k.provisionAndFetch env r.2 args

/-- `Create`: resolve the tool (propagating resolution errors), then run
the create flow.  The context parameter is accepted and unused, as in the
source. -/
def Cluster.Create (k : Cluster) (ctx : Ctx) (env : Env) (s : Sys) (args : List String) :
    (String × Option String) × Cluster × Sys :=
  match k.findOrInstallKind env s with
  | (some e, k1, s1) => (("", some e), k1, s1)
  | (none, k1, s1) => k1.createCore env s1 args

/-- `Destroy`: resolve the tool, run the delete command, then remove the
credential file with `os.RemoveAll`, surfacing any removal failure. -/
def Cluster.Destroy (k : Cluster) (ctx : Ctx) (env : Env) (s : Sys) :
    Option String × Cluster × Sys :=
  match k.findOrInstallKind env s with
  | (some e, k1, s1) => (some e, k1, s1)
  | (none, k1, s1) =>
    let cmd := deleteClusterCmd k1
    let p := env.run s1.hist cmd
    let s2 := { s1 with hist := s1.hist ++ [cmd] }
    match p.err with
    | some e =>
      (some ("kind: delete cluster " ++ k1.name ++ " failed: " ++ e ++ ": " ++ p.result), k1, s2)
    | none =>
      match env.removeAll k1.kubecfgFile with
      | some e =>
        (some ("kind: remove kubefconfig " ++ k1.kubecfgFile ++ " failed: " ++ e), k1, s2)
      | none =>
        (none, k1, { s2 with fs := s2.fs.filter (fun f => !(f.1 = k1.kubecfgFile)) })

/-- The first selector group of `WaitForControlPlane`: core control-plane
components. -/
def cpReq : LabelSelectorRequirement :=
  { key := "component", op := "In",
    values := ["etcd", "kube-apiserver", "kube-controller-manager", "kube-scheduler"] }

/-- The second selector group of `WaitForControlPlane`: cluster add-ons. -/
def addonReq : LabelSelectorRequirement :=
  { key := "k8s-app", op := "In", values := ["kindnet", "kube-dns", "kube-proxy"] }

/-- The `for` loop of `WaitForControlPlane`: for each requirement in order,
build the selector (returning its error), then block on the pod-list wait
for `len(sl.Values)` pods, returning the first wait error.  The second
component records each pod-list wait issued, in order, as
(selector, expected count). -/
def waitGroups (env : Env) : List LabelSelectorRequirement → Option String × List (String × Nat)
  | [] => (none, [])
  | sl :: rest =>
    match env.selectorOf sl with
    | .error e => (some e, [])
    | .ok sel =>
      match env.waitFor sel sl.values.length with
      | some e => (some e, [(sel, sl.values.length)])
      | none =>
        let r := waitGroups env rest
        (r.1, (sel, sl.values.length) :: r.2)

/-- `WaitForControlPlane`: build the resource client, then wait on the two
selector groups in order.  The context parameter is accepted and unused, as
in the source (it is never passed to `wait.For`). -/
def Cluster.WaitForControlPlane (k : Cluster) (ctx : Ctx) (env : Env) :
    Option String × List (String × Nat) :=
  match env.resourcesNewErr with
  | some e => (some e, [])
  | none => waitGroups env [cpReq, addonReq]

/-- An environment where every command succeeds: the kubeconfig fetch
emits a non-empty blob, cluster listings are empty, the installer returns
the hint path unchanged, parsing and removal succeed, selectors render as
their key, and every pod-list wait is immediately satisfied. -/
def baseEnv : Env :=
  { run := fun _ _ => { err := none, out := "apiVersion: v1", result := "" },
    fetch := fun _ _ => "",
    findOrInstallGoBasedProvider := fun p _ _ _ => (p, none),
    tempErr := none,
    confNew := fun _ => none,
    removeAll := fun _ => none,
    resourcesNewErr := none,
    selectorOf := fun sl => .ok sl.key,
    waitFor := fun _ _ => none }

/-- Like `baseEnv`, but the cluster listing reports `demo` exactly after
the create command has run — a persistent provisioning tool. -/
def demoEnv : Env :=
  { baseEnv with fetch := fun hist _ =>
      if hist.contains "kind create cluster --name demo" then "demo" else "" }

/-- Like `baseEnv`, but the cluster listing always reports `demo`: the
cluster pre-exists. -/
def existsEnv : Env :=
  { baseEnv with fetch := fun _ _ => "demo" }

/-- Like `baseEnv`, but the kubeconfig fetch emits an empty byte
stream. -/
def emptyOutEnv : Env :=
  { baseEnv with run := fun _ _ => { err := none, out := "", result := "" } }

/-- Like `baseEnv`, but with a fixed cluster-listing output. -/
def listEnv (o : String) : Env :=
  { baseEnv with fetch := fun _ _ => o }

/-- A handle named `demo` with the default tool path. -/
def kdemo : Cluster :=
  (NewCluster "demo").SetDefaults

/-- A handle with an empty name and the default tool path. -/
def kempty : Cluster :=
  (NewCluster "").SetDefaults

/-- A `demo` handle that already holds a credential file path. -/
def kcred : Cluster :=
  { kdemo with kubecfgFile := "cred" }

/-- The initial world: source default version, empty disk, no history. -/
def s0 : Sys :=
  { kindVersion := "v0.17.0", fs := [], tmpCtr := 0, hist := [], installCalls := [] }

/-- A world where the credential file `cred` exists on disk. -/
def sCred : Sys :=
  { s0 with fs := [("cred", 7)] }
theorem linesContain_iff (l : List String) (n : String) :
    linesContain l n = true ↔ n ∈ l := by
  induction l with
  | nil => simp [linesContain]
  | cons c rest ih =>
    by_cases h : c = n
    · simp [linesContain, h]
    · simp only [linesContain, h, if_false, ih, List.mem_cons]
      constructor
      · exact Or.inr
      · rintro (rfl | hm)
        · exact absurd rfl h
        · exact hm

theorem splitNl_ne_nil (cs : List Char) : splitNl cs ≠ [] := by
  cases cs with
  | nil => simp [splitNl]
  | cons c rest =>
    simp only [splitNl]
    split
    · simp
    · split <;> simp

theorem splitNl_append_nl (cs : List Char) :
    splitNl (cs ++ ['\n']) = splitNl cs ++ [[]] := by
  induction cs with
  | nil => simp [splitNl]
  | cons c rest ih =>
    by_cases h : c = '\n'
    · simp [splitNl, h, ih]
    · have hs : ∃ h1 t, splitNl rest = h1 :: t := by
        rcases hr : splitNl rest with _ | ⟨h1, t⟩
        · exact absurd hr (splitNl_ne_nil rest)
        · exact ⟨h1, t, rfl⟩
      rcases hs with ⟨h1, t, hs⟩
      simp [splitNl, h, ih, hs]

theorem getKubeconfig_hist (k : Cluster) (env : Env) (s : Sys) :
    ((k.getKubeconfig env s).2.2).hist = s.hist ++ [getKubeconfigCmd k] := by
  simp only [Cluster.getKubeconfig]
  split
  · simp
  · split
    · simp
    · split <;> simp

theorem findOrInstallKind_fields (k : Cluster) (env : Env) (s : Sys) :
    (k.findOrInstallKind env s).2.1.name = k.name ∧
    (k.findOrInstallKind env s).2.1.kubecfgFile = k.kubecfgFile ∧
    (k.findOrInstallKind env s).2.1.rc = k.rc ∧
    (k.findOrInstallKind env s).2.2.hist = s.hist ∧
    (k.findOrInstallKind env s).2.2.tmpCtr = s.tmpCtr ∧
    (k.findOrInstallKind env s).2.2.fs = s.fs := by
  unfold Cluster.findOrInstallKind
  by_cases h2 : (env.findOrInstallGoBasedProvider k.path "kind" "sigs.k8s.io/kind"
      (if k.version = "" then s.kindVersion else k.version)).1 = "" <;>
    simp [h2]

theorem Create_of_find_none (k k1 : Cluster) (ctx : Ctx) (env : Env) (s s1 : Sys)
    (args : List String)
    (hfind : k.findOrInstallKind env s = (none, k1, s1)) :
    k.Create ctx env s args = k1.createCore env s1 args := by
  unfold Cluster.Create
  rw [hfind]

theorem createCore_short_circuit (k : Cluster) (env : Env) (s : Sys) (args : List String)
    (hex : linesContain (goSplitLines (env.fetch s.hist (getClustersCmd k))) k.name = true) :
    k.createCore env s args =
      k.getKubeconfig env { s with hist := s.hist ++ [getClustersCmd k] } := by
  simp [Cluster.createCore, Cluster.clusterExists, hex]
/-- C2: `clusterExists` returns true iff the target name equals, character
for character, one of the lines obtained by splitting the listing output on
newlines; for listing output `a\nb\nc`, `clusterExists "b"` is true and
`clusterExists "d"` is false; a listing containing only the line `foo-bar`
does not satisfy an existence check for `foo`. -/
theorem clusterExists_exact_line_match :
    (∀ (k : Cluster) (env : Env) (s : Sys) (name : String),
        (((k.clusterExists env s name).1.2 = true) ↔
          name.data ∈ splitNl ((k.clusterExists env s name).1.1).data)) ∧
    ((kdemo.clusterExists (listEnv "a\nb\nc") s0 "b").1.2 = true) ∧
    ((kdemo.clusterExists (listEnv "a\nb\nc") s0 "d").1.2 = false) ∧
    ((kdemo.clusterExists (listEnv "foo-bar") s0 "foo").1.2 = false) := by
  refine ⟨?_, by decide, by decide, by decide⟩
  intro k env s name
  simp only [Cluster.clusterExists]
  rw [linesContain_iff]
  simp only [goSplitLines, List.mem_map]
  constructor
  · rintro ⟨a, ha, rfl⟩
    exact ha
  · intro h
    exact ⟨name.data, h, rfl⟩

/-- C3 (counterexample): with a tool that exits zero but emits an empty
kubeconfig stream, `getKubeconfig` fails with the zero-bytes-copied error —
but the handle IS left referencing the zero-length credential file:
`GetKubeconfig` returns the path of the empty temp file, because the source
assigns `k.kubecfgFile = file.Name()` before the copy check. -/
theorem zero_byte_kubeconfig_counterexample :
    ((kdemo.getKubeconfig emptyOutEnv s0).1.2 =
      some "kind kubecfg file: bytes copied: 0") ∧
    ((kdemo.getKubeconfig emptyOutEnv s0).2.1.GetKubeconfig =
      "kind-cluser-demo-kubecfg0") ∧
    (("kind-cluser-demo-kubecfg0", 0) ∈ (kdemo.getKubeconfig emptyOutEnv s0).2.2.fs) := by
  decide

/-- C3 (amended): whenever the kubeconfig command succeeds with an empty
output stream and the temp file is created, `getKubeconfig` fails with the
zero-bytes-copied error, yet the handle is left referencing the zero-length
temp file: `GetKubeconfig` returns its path and the file sits on disk with
size 0. -/
theorem getKubeconfig_zero_bytes_error_retains_path
    (k : Cluster) (env : Env) (s : Sys) (pr : String)
    (hrun : env.run s.hist (getKubeconfigCmd k) = { err := none, out := "", result := pr })
    (htemp : env.tempErr = none) :
    ((k.getKubeconfig env s).1 = ("", some "kind kubecfg file: bytes copied: 0")) ∧
    ((k.getKubeconfig env s).2.1.GetKubeconfig =
      "kind-cluser-" ++ (k.name ++ "-kubecfg") ++ toString s.tmpCtr) ∧
    (("kind-cluser-" ++ (k.name ++ "-kubecfg") ++ toString s.tmpCtr, 0) ∈
      (k.getKubeconfig env s).2.2.fs) := by
  have h0 : ("" : String).utf8ByteSize = 0 := rfl
  have h1 : ("kind kubecfg file: bytes copied: " ++ toString (0 : Nat)) =
      "kind kubecfg file: bytes copied: 0" := rfl
  simp [Cluster.getKubeconfig, Cluster.GetKubeconfig, hrun, htemp, h0, h1]

theorem getKubeconfig_zero_bytes_error_retains_path_witness :
    ((kdemo.getKubeconfig emptyOutEnv s0).1 =
      ("", some "kind kubecfg file: bytes copied: 0")) ∧
    ((kdemo.getKubeconfig emptyOutEnv s0).2.1.GetKubeconfig =
      "kind-cluser-" ++ ("demo" ++ "-kubecfg") ++ toString 0) ∧
    (("kind-cluser-" ++ ("demo" ++ "-kubecfg") ++ toString 0, 0) ∈
      (kdemo.getKubeconfig emptyOutEnv s0).2.2.fs) :=
  getKubeconfig_zero_bytes_error_retains_path kdemo emptyOutEnv s0 "" rfl rfl

/-- C6 (counterexample): invoking `WaitForControlPlane` with an
already-cancelled context does NOT return a cancellation error and does
issue pod-listing calls: with every wait satisfied it returns success after
polling both selector groups. -/
theorem waitForControlPlane_cancelled_ctx_counterexample :
    ((kdemo.WaitForControlPlane { cancelled := true } baseEnv).1 = none) ∧
    ((kdemo.WaitForControlPlane { cancelled := true } baseEnv).2 =
      [("component", 4), ("k8s-app", 3)]) := by
  decide

/-- C6 (amended): `WaitForControlPlane` never consults the caller's
context: its result and its sequence of pod-listing waits are identical for
every context, cancelled or not, so an already-cancelled context neither
suppresses pod-listing calls nor yields a cancellation error. -/
theorem waitForControlPlane_ignores_context (k : Cluster) (env : Env) (c1 c2 : Ctx) :
    k.WaitForControlPlane c1 env = k.WaitForControlPlane c2 env := rfl

/-- C8 (counterexample): on the short-circuited path (cluster already
listed), a fresh handle's `Create` succeeds — error nil, credential path
returned — yet `KubernetesRestConfig` is still nil: the short-circuit
returns `getKubeconfig` directly and never initializes the access
clients. -/
theorem create_short_circuit_nil_restconfig_counterexample :
    ((kdemo.Create { cancelled := false } existsEnv s0 []).1 =
      ("kind-cluser-demo-kubecfg0", none)) ∧
    ((kdemo.Create { cancelled := false } existsEnv s0 []).2.1.KubernetesRestConfig =
      none) := by
  decide

/-- C1 (counterexample): two successive `Create` calls with the same name
both succeed, the second short-circuits, but the returned credential file
paths DIFFER: each call extracts the kubeconfig into a freshly created
temporary file. -/
theorem create_twice_same_path_counterexample :
    ((kdemo.Create { cancelled := false } demoEnv s0 []).1 =
      ("kind-cluser-demo-kubecfg0", none)) ∧
    (((kdemo.Create { cancelled := false } demoEnv s0 []).2.1.Create
        { cancelled := false } demoEnv
        (kdemo.Create { cancelled := false } demoEnv s0 []).2.2 []).1 =
      ("kind-cluser-demo-kubecfg1", none)) ∧
    ((kdemo.Create { cancelled := false } demoEnv s0 []).1.1 ≠
      ((kdemo.Create { cancelled := false } demoEnv s0 []).2.1.Create
        { cancelled := false } demoEnv
        (kdemo.Create { cancelled := false } demoEnv s0 []).2.2 []).1.1) := by
  decide
/-- C1 (amended): calling `Create` twice in succession with the same name,
the second call performs no second provisioning invocation — once the
existence check still finds the name as an exact line of the listing, the
call runs exactly the cluster-listing command and the kubeconfig-fetch
command and returns the result of re-fetching the kubeconfig into a fresh
temporary file; the two calls' returned paths are therefore distinct fresh
temp files, not the same path. -/
theorem create_second_call_short_circuits
    (k kA k2 : Cluster) (ctx : Ctx) (env : Env) (s sA s2 : Sys)
    (args args2 : List String) (p1 : String)
    (hfirst : k.Create ctx env s args = ((p1, none), kA, sA))
    (hfind : kA.findOrInstallKind env sA = (none, k2, s2))
    (hex : linesContain (goSplitLines (env.fetch s2.hist (getClustersCmd k2))) k2.name = true) :
    (kA.Create ctx env sA args2 =
      k2.getKubeconfig env { s2 with hist := s2.hist ++ [getClustersCmd k2] }) ∧
    ((kA.Create ctx env sA args2).2.2.hist =
      s2.hist ++ [getClustersCmd k2, getKubeconfigCmd k2]) := by
  have h1 := Create_of_find_none kA k2 ctx env sA s2 args2 hfind
  have h2 := createCore_short_circuit k2 env s2 args2 hex
  refine ⟨h1.trans h2, ?_⟩
  rw [h1, h2, getKubeconfig_hist]
  simp

theorem create_second_call_short_circuits_witness :
    (((kdemo.Create { cancelled := false } demoEnv s0 []).2.1.Create
        { cancelled := false } demoEnv
        (kdemo.Create { cancelled := false } demoEnv s0 []).2.2 []).2.2.hist =
      ["kind get clusters", "kind create cluster --name demo",
       "kind get clusters", "kind get kubeconfig --name demo",
       "kind get clusters", "kind get kubeconfig --name demo"]) :=
  ((create_second_call_short_circuits kdemo
      (kdemo.Create { cancelled := false } demoEnv s0 []).2.1
      ((kdemo.Create { cancelled := false } demoEnv s0 []).2.1.findOrInstallKind demoEnv
        (kdemo.Create { cancelled := false } demoEnv s0 []).2.2).2.1
      { cancelled := false } demoEnv s0
      (kdemo.Create { cancelled := false } demoEnv s0 []).2.2
      ((kdemo.Create { cancelled := false } demoEnv s0 []).2.1.findOrInstallKind demoEnv
        (kdemo.Create { cancelled := false } demoEnv s0 []).2.2).2.2
      [] [] "kind-cluser-demo-kubecfg0"
      (by decide) (by decide) (by decide)).2).trans (by decide)

/-- C10: when the cluster-listing output is empty or ends in a newline,
splitting on newlines yields an empty-string line, which exactly matches
the empty name; hence `Create` on a handle whose name is empty
short-circuits as already-existing, running only the listing command and
the kubeconfig fetch and never the create subcommand. -/
theorem create_empty_name_short_circuits
    (k k1 : Cluster) (ctx : Ctx) (env : Env) (s s1 : Sys) (args : List String)
    (hname : k.name = "")
    (hfind : k.findOrInstallKind env s = (none, k1, s1))
    (hout : env.fetch s1.hist (getClustersCmd k1) = "" ∨
            ∃ cs, (env.fetch s1.hist (getClustersCmd k1)).data = cs ++ ['\n']) :
    (k.Create ctx env s args =
      k1.getKubeconfig env { s1 with hist := s1.hist ++ [getClustersCmd k1] }) ∧
    ((k.Create ctx env s args).2.2.hist =
      s1.hist ++ [getClustersCmd k1, getKubeconfigCmd k1]) := by
  have hn : k1.name = k.name := by
    have h := (findOrInstallKind_fields k env s).1
    rw [hfind] at h
    exact h
  have hex : linesContain (goSplitLines (env.fetch s1.hist (getClustersCmd k1))) k1.name
      = true := by
    rw [hn, hname, linesContain_iff]
    rcases hout with h | ⟨cs, hcs⟩
    · rw [h]
      decide
    · simp only [goSplitLines, hcs, splitNl_append_nl, List.mem_map]
      exact ⟨[], by simp, rfl⟩
  have h1 := Create_of_find_none k k1 ctx env s s1 args hfind
  have h2 := createCore_short_circuit k1 env s1 args hex
  refine ⟨h1.trans h2, ?_⟩
  rw [h1, h2, getKubeconfig_hist]
  simp

theorem create_empty_name_short_circuits_witness :
    ((kempty.Create { cancelled := false } baseEnv s0 []).2.2.hist =
      ["kind get clusters", "kind get kubeconfig --name "]) :=
  ((create_empty_name_short_circuits kempty
      (kempty.findOrInstallKind baseEnv s0).2.1
      { cancelled := false } baseEnv s0
      (kempty.findOrInstallKind baseEnv s0).2.2 []
      rfl (by decide) (Or.inl (by decide))).2).trans (by decide)

/-- C9: the default tool version is process-wide mutable state: a handle
with a non-empty version overwrites the global `kindVersion` when it runs
`findOrInstallKind` (and passes it to the installer), and a subsequent
handle whose own version is empty passes that overwritten global value to
the installer. -/
theorem kindVersion_global_default_mutation
    (k1 k2 : Cluster) (env : Env) (s : Sys)
    (h1 : k1.version ≠ "")
    (h2 : k2.version = "") :
    ((k1.findOrInstallKind env s).2.2.kindVersion = k1.version) ∧
    ((k1.findOrInstallKind env s).2.2.installCalls =
      s.installCalls ++ [(k1.path, k1.version)]) ∧
    ((k2.findOrInstallKind env (k1.findOrInstallKind env s).2.2).2.2.kindVersion
      = k1.version) ∧
    ((k2.findOrInstallKind env (k1.findOrInstallKind env s).2.2).2.2.installCalls =
      s.installCalls ++ [(k1.path, k1.version), (k2.path, k1.version)]) := by
  simp [Cluster.findOrInstallKind, h1, h2]

theorem kindVersion_global_default_mutation_witness :
    ((kdemo.findOrInstallKind baseEnv
        ((kdemo.WithVersion "v0.20.0").findOrInstallKind baseEnv s0).2.2).2.2.installCalls =
      [("kind", "v0.20.0"), ("kind", "v0.20.0")]) :=
  ((kindVersion_global_default_mutation (kdemo.WithVersion "v0.20.0") kdemo baseEnv s0
      (by decide) rfl).2.2.2).trans (by decide)
theorem createCore_not_exists (k : Cluster) (env : Env) (s : Sys) (args : List String)
    (hex : linesContain (goSplitLines (env.fetch s.hist (getClustersCmd k))) k.name = false) :
    k.createCore env s args =
      k.provisionAndFetch env { s with hist := s.hist ++ [getClustersCmd k] } args := by
  simp [Cluster.createCore, Cluster.clusterExists, hex]

theorem provisionAndFetch_consistency
    (k : Cluster) (env : Env) (s : Sys) (args : List String) (o r : String)
    (hrun : env.run s.hist (createClusterCmd k args) = { err := none, out := o, result := r })
    (hex2 : linesContain (goSplitLines (env.fetch (s.hist ++ [createClusterCmd k args])
        (getClustersCmd k))) k.name = false) :
    k.provisionAndFetch env s args =
      (("", some ("kind Cluster.Create: cluster " ++ k.name ++
          " still not in 'cluster list' after creation: " ++
          env.fetch (s.hist ++ [createClusterCmd k args]) (getClustersCmd k))), k,
       { s with hist := s.hist ++ [createClusterCmd k args, getClustersCmd k] }) := by
  simp [Cluster.provisionAndFetch, Cluster.clusterExists, hrun, hex2]

/-- C4: when the create invocation reports success (nil error) but the
cluster name is still absent from the post-invocation listing, `Create`
returns the explicit inconsistency error: the value is empty, the error
names the cluster and the listing, and the command history shows exactly
one create invocation, not retried, with no kubeconfig extraction. -/
theorem create_consistency_error
    (k k1 : Cluster) (ctx : Ctx) (env : Env) (s s1 : Sys) (args : List String) (o r : String)
    (hfind : k.findOrInstallKind env s = (none, k1, s1))
    (hex1 : linesContain (goSplitLines (env.fetch s1.hist (getClustersCmd k1))) k1.name
      = false)
    (hrun : env.run (s1.hist ++ [getClustersCmd k1]) (createClusterCmd k1 args) =
      { err := none, out := o, result := r })
    (hex2 : linesContain (goSplitLines (env.fetch
        (s1.hist ++ [getClustersCmd k1, createClusterCmd k1 args])
        (getClustersCmd k1))) k1.name = false) :
    k.Create ctx env s args =
      (("", some ("kind Cluster.Create: cluster " ++ k1.name ++
          " still not in 'cluster list' after creation: " ++
          env.fetch (s1.hist ++ [getClustersCmd k1, createClusterCmd k1 args])
            (getClustersCmd k1))), k1,
       { s1 with hist := s1.hist ++ [getClustersCmd k1, createClusterCmd k1 args,
          getClustersCmd k1] }) := by
  have e1 := Create_of_find_none k k1 ctx env s s1 args hfind
  have e2 := createCore_not_exists k1 env s1 args hex1
  have e3 := provisionAndFetch_consistency k1 env
    { s1 with hist := s1.hist ++ [getClustersCmd k1] } args o r
    (by simpa using hrun) (by simpa using hex2)
  rw [e1, e2, e3]
  simp

theorem create_consistency_error_witness :
    kdemo.Create { cancelled := false } baseEnv s0 [] =
      (("", some
          "kind Cluster.Create: cluster demo still not in 'cluster list' after creation: "),
       kdemo,
       { kindVersion := "v0.17.0", fs := [], tmpCtr := 0,
         hist := ["kind get clusters", "kind create cluster --name demo",
           "kind get clusters"],
         installCalls := [("kind", "v0.17.0")] }) :=
  (create_consistency_error kdemo
      (kdemo.findOrInstallKind baseEnv s0).2.1 { cancelled := false } baseEnv s0
      (kdemo.findOrInstallKind baseEnv s0).2.2 [] "apiVersion: v1" ""
      (by decide) (by decide) (by decide) (by decide)).trans (by decide)

/-- C5: in `WaitForControlPlane` the two selector groups are waited on
strictly sequentially in a fixed order: the control-plane group (expected
count 4, the number of listed values) is polled first, and the add-on group
(expected count 3) is polled only when the control-plane wait succeeded;
any error from either wait is returned immediately, aborting the check. -/
theorem waitForControlPlane_sequential_groups
    (k : Cluster) (ctx : Ctx) (env : Env) (sel1 sel2 : String)
    (hres : env.resourcesNewErr = none)
    (h1 : env.selectorOf cpReq = .ok sel1)
    (h2 : env.selectorOf addonReq = .ok sel2) :
    (cpReq.values.length = 4) ∧ (addonReq.values.length = 3) ∧
    (k.WaitForControlPlane ctx env =
      match env.waitFor sel1 4 with
      | some e => (some e, [(sel1, 4)])
      | none => (env.waitFor sel2 3, [(sel1, 4), (sel2, 3)])) := by
  have l1 : cpReq.values.length = 4 := rfl
  have l2 : addonReq.values.length = 3 := rfl
  refine ⟨l1, l2, ?_⟩
  simp only [Cluster.WaitForControlPlane, hres, waitGroups, h1, h2, l1, l2]
  cases hw : env.waitFor sel1 4 with
  | some e => simp [hw]
  | none => cases hw2 : env.waitFor sel2 3 <;> simp [waitGroups, h2, l2, hw, hw2]

theorem waitForControlPlane_sequential_groups_witness :
    kdemo.WaitForControlPlane { cancelled := false } baseEnv =
      (none, [("component", 4), ("k8s-app", 3)]) :=
  ((waitForControlPlane_sequential_groups kdemo { cancelled := false } baseEnv
      "component" "k8s-app" rfl rfl rfl).2.2).trans (by decide)

/-- C7: `Destroy` invokes the tool's delete-by-name subcommand and then
removes the credential file from disk; a failure of the removal is surfaced
as an error; and after a successful `Destroy` the path returned by
`GetKubeconfig` no longer exists on disk (no filesystem entry carries that
name). -/
theorem destroy_removes_credential_file
    (k k1 : Cluster) (ctx : Ctx) (env : Env) (s s1 : Sys) (o r : String)
    (hfind : k.findOrInstallKind env s = (none, k1, s1))
    (hrun : env.run s1.hist (deleteClusterCmd k1) = { err := none, out := o, result := r }) :
    (∀ e, env.removeAll k1.kubecfgFile = some e →
      (k.Destroy ctx env s).1 =
        some ("kind: remove kubefconfig " ++ k1.kubecfgFile ++ " failed: " ++ e)) ∧
    (env.removeAll k1.kubecfgFile = none →
      ((k.Destroy ctx env s).1 = none) ∧
      ((k.Destroy ctx env s).2.1.GetKubeconfig = k.kubecfgFile) ∧
      (∀ f ∈ (k.Destroy ctx env s).2.2.fs, f.1 ≠ (k.Destroy ctx env s).2.1.GetKubeconfig) ∧
      ((k.Destroy ctx env s).2.2.hist = s1.hist ++ [deleteClusterCmd k1])) := by
  have hkf : k1.kubecfgFile = k.kubecfgFile := by
    have h := (findOrInstallKind_fields k env s).2.1
    rw [hfind] at h
    exact h
  constructor
  · intro e hre
    unfold Cluster.Destroy
    rw [hfind]
    simp [hrun, hre]
  · intro hre
    have hD : k.Destroy ctx env s =
        (none, k1, { s1 with hist := s1.hist ++ [deleteClusterCmd k1],
                             fs := s1.fs.filter (fun f => !(f.1 = k1.kubecfgFile)) }) := by
      unfold Cluster.Destroy
      rw [hfind]
      simp [hrun, hre]
    rw [hD]
    refine ⟨rfl, hkf ▸ rfl, ?_, rfl⟩
    intro f hf
    have hp := (List.mem_filter.mp hf).2
    simpa [Cluster.GetKubeconfig] using hp

theorem destroy_removes_credential_file_witness :
    ((kcred.Destroy { cancelled := false } baseEnv sCred).1 = none) ∧
    (∀ f ∈ (kcred.Destroy { cancelled := false } baseEnv sCred).2.2.fs,
      f.1 ≠ (kcred.Destroy { cancelled := false } baseEnv sCred).2.1.GetKubeconfig) :=
  ⟨((destroy_removes_credential_file kcred
      (kcred.findOrInstallKind baseEnv sCred).2.1 { cancelled := false } baseEnv sCred
      (kcred.findOrInstallKind baseEnv sCred).2.2 "apiVersion: v1" ""
      (by decide) (by decide)).2 rfl).1,
   ((destroy_removes_credential_file kcred
      (kcred.findOrInstallKind baseEnv sCred).2.1 { cancelled := false } baseEnv sCred
      (kcred.findOrInstallKind baseEnv sCred).2.2 "apiVersion: v1" ""
      (by decide) (by decide)).2 rfl).2.2.1⟩

theorem getKubeconfig_success
    (k : Cluster) (env : Env) (s : Sys) (o r : String)
    (hrun : env.run s.hist (getKubeconfigCmd k) = { err := none, out := o, result := r })
    (htemp : env.tempErr = none)
    (hbytes : o.utf8ByteSize ≠ 0) :
    k.getKubeconfig env s =
      (("kind-cluser-" ++ (k.name ++ "-kubecfg") ++ toString s.tmpCtr, none),
       { k with kubecfgFile := "kind-cluser-" ++ (k.name ++ "-kubecfg") ++ toString s.tmpCtr },
       { s with hist := s.hist ++ [getKubeconfigCmd k],
                fs := s.fs ++ [("kind-cluser-" ++ (k.name ++ "-kubecfg") ++ toString s.tmpCtr,
                  o.utf8ByteSize)],
                tmpCtr := s.tmpCtr + 1 }) := by
  simp [Cluster.getKubeconfig, hrun, htemp, hbytes]

theorem provisionAndFetch_created
    (k : Cluster) (env : Env) (s : Sys) (args : List String) (o r : String)
    (hrun : env.run s.hist (createClusterCmd k args) = { err := none, out := o, result := r })
    (hex2 : linesContain (goSplitLines (env.fetch (s.hist ++ [createClusterCmd k args])
        (getClustersCmd k))) k.name = true) :
    k.provisionAndFetch env s args =
      (match k.getKubeconfig env
          { s with hist := s.hist ++ [createClusterCmd k args, getClustersCmd k] } with
       | ((_, some e), k2, s3) => (("", some e), k2, s3)
       | ((kConfig, none), k2, s3) =>
         ((kConfig, (k2.initKubernetesAccessClients env).1),
          (k2.initKubernetesAccessClients env).2, s3)) := by
  simp [Cluster.provisionAndFetch, Cluster.clusterExists, hrun, hex2]

/-- C8 (amended): after a successful `Create` that actually provisions the
cluster (name absent from the pre-check listing, present afterwards,
non-empty kubeconfig, parse succeeds), the handle's rest config is
initialized: `KubernetesRestConfig` is non-nil and `GetKubeconfig` holds
the freshly written credential path, which is also returned.  (On the
short-circuited already-exists path the rest config is NOT initialized; see
the counterexample.) -/
theorem create_full_path_initializes_restconfig
    (k k1 : Cluster) (ctx : Ctx) (env : Env) (s s1 : Sys) (args : List String)
    (o1 r1 o2 r2 : String)
    (hfind : k.findOrInstallKind env s = (none, k1, s1))
    (hex1 : linesContain (goSplitLines (env.fetch s1.hist (getClustersCmd k1))) k1.name
      = false)
    (hrun : env.run (s1.hist ++ [getClustersCmd k1]) (createClusterCmd k1 args) =
      { err := none, out := o1, result := r1 })
    (hex2 : linesContain (goSplitLines (env.fetch
        (s1.hist ++ [getClustersCmd k1, createClusterCmd k1 args])
        (getClustersCmd k1))) k1.name = true)
    (hrunK : env.run (s1.hist ++ [getClustersCmd k1, createClusterCmd k1 args,
        getClustersCmd k1]) (getKubeconfigCmd k1) =
      { err := none, out := o2, result := r2 })
    (htemp : env.tempErr = none)
    (hbytes : o2.utf8ByteSize ≠ 0)
    (hconf : env.confNew ("kind-cluser-" ++ (k1.name ++ "-kubecfg") ++ toString s1.tmpCtr)
      = none) :
    ((k.Create ctx env s args).1 =
      ("kind-cluser-" ++ (k1.name ++ "-kubecfg") ++ toString s1.tmpCtr, none)) ∧
    ((k.Create ctx env s args).2.1.KubernetesRestConfig = some ()) ∧
    ((k.Create ctx env s args).2.1.GetKubeconfig =
      "kind-cluser-" ++ (k1.name ++ "-kubecfg") ++ toString s1.tmpCtr) := by
  have e1 := Create_of_find_none k k1 ctx env s s1 args hfind
  have e2 := createCore_not_exists k1 env s1 args hex1
  have e3 := provisionAndFetch_created k1 env
    { s1 with hist := s1.hist ++ [getClustersCmd k1] } args o1 r1
    (by simpa using hrun) (by simpa using hex2)
  have e4 := getKubeconfig_success k1 env
    { s1 with hist := s1.hist ++ [getClustersCmd k1, createClusterCmd k1 args,
        getClustersCmd k1] } o2 r2 (by simpa using hrunK) htemp hbytes
  have e5 : k.Create ctx env s args =
      (match k1.getKubeconfig env
          { s1 with hist := s1.hist ++ [getClustersCmd k1, createClusterCmd k1 args,
              getClustersCmd k1] } with
       | ((_, some e), k2, s3) => (("", some e), k2, s3)
       | ((kConfig, none), k2, s3) =>
         ((kConfig, (k2.initKubernetesAccessClients env).1),
          (k2.initKubernetesAccessClients env).2, s3)) := by
    rw [e1, e2, e3]
    congr 1
    simp
  rw [e5, e4]
  simp [Cluster.initKubernetesAccessClients, Cluster.KubernetesRestConfig,
    Cluster.GetKubeconfig, hconf]

theorem create_full_path_initializes_restconfig_witness :
    ((kdemo.Create { cancelled := false } demoEnv s0 []).1 =
      ("kind-cluser-" ++ ("demo" ++ "-kubecfg") ++ toString 0, none)) ∧
    ((kdemo.Create { cancelled := false } demoEnv s0 []).2.1.KubernetesRestConfig
      = some ()) :=
  ⟨((create_full_path_initializes_restconfig kdemo
      (kdemo.findOrInstallKind demoEnv s0).2.1 { cancelled := false } demoEnv s0
      (kdemo.findOrInstallKind demoEnv s0).2.2 [] "apiVersion: v1" "" "apiVersion: v1" ""
      (by decide) (by decide) (by decide) (by decide) (by decide) rfl (by decide)
      (by decide)).1).trans (by decide),
   ((create_full_path_initializes_restconfig kdemo
      (kdemo.findOrInstallKind demoEnv s0).2.1 { cancelled := false } demoEnv s0
      (kdemo.findOrInstallKind demoEnv s0).2.2 [] "apiVersion: v1" "" "apiVersion: v1" ""
      (by decide) (by decide) (by decide) (by decide) (by decide) rfl (by decide)
      (by decide)).2.1)⟩
